import Mathlib

/-
Verification development for the warehouse event-processing service.

The definitions below are a shallow embedding of the repository's core
pipeline:

  app/db/crud.py        - WarehouseStockRepository.create_or_update_stock,
                          MovementRepository.create_or_update,
                          MovementEventRepository.is_event_processed / create
  app/services/warehouse.py      - WarehouseService.process_movement_event,
                                   WarehouseService._invalidate_cache
  app/services/kafka_consumer.py - KafkaConsumerService._process_message_wrapper,
                                   KafkaConsumerService._consume_messages,
                                   KafkaConsumerService._prepare_event_data
  app/api/schemas.py    - KafkaMessage / MovementEventData pydantic validation

Database tables are modelled as association lists, datetimes as rational
numbers of seconds since the epoch (so total_seconds of a difference is
plain subtraction), and the externally observable I/O of one consumer step
(cache deletions, transaction commits, offset commits) as an explicit list
of actions in program order.  ISO-8601 timestamp parsing
(datetime.fromisoformat) is Python standard library, not repository code;
it is abstracted as a parameter parseIso throughout, so every theorem
holds for an arbitrary parser.
-/

/-- Event kind, from app/db/models.py EventType (values "arrival"/"departure"). -/
inductive EventType where
  | arrival
  | departure
deriving DecidableEq, Repr

/-- The ValueError raised by WarehouseStockRepository.create_or_update_stock
when a delta would make a stock quantity negative (spec name NEGATIVE_STOCK). -/
inductive StockErr where
  | negativeStock
deriving DecidableEq, Repr

/-- Externally observable I/O actions of the consumer, in program order:
Redis DEL of a cache key, a database transaction commit, a Kafka offset commit. -/
inductive SysAction where
  | cacheDelete (key : String)
  | dbCommit (messageId : String)
  | offsetCommit (offset : Int)
deriving DecidableEq, Repr

/-- A row of the movements table, from app/db/models.py Movement
(created_at / updated_at bookkeeping columns are not modelled). -/
structure Movement where
  id : String
  product_id : String
  source_warehouse_id : Option String
  departure_timestamp : Option Rat
  departure_quantity : Option Int
  destination_warehouse_id : Option String
  arrival_timestamp : Option Rat
  arrival_quantity : Option Int
  transfer_time : Option Rat
  quantity_difference : Option Int
deriving DecidableEq, Repr

/-- The processed_data dictionary built by
KafkaConsumerService._prepare_event_data and consumed by
WarehouseService.process_movement_event. -/
structure EventData where
  message_id : String
  message_source : String
  message_time : Rat
  movement_id : String
  warehouse_id : String
  timestamp : Rat
  event_type : EventType
  product_id : String
  quantity : Int
deriving DecidableEq, Repr

/-- The committed relational state: products, warehouses, warehouse_stocks
(keyed by warehouse_id and product_id), movements (keyed by movement id),
and the movement_events journal (the list of processed Kafka message ids). -/
structure DBState where
  products : List String
  warehouses : List String
  stocks : List ((String × String) × Int)
  movements : List (String × Movement)
  journal : List String
deriving DecidableEq, Repr

/-- Lookup of a warehouse_stocks row by (warehouse_id, product_id),
modelling WarehouseStockRepository.get_stock. -/
def lookupStock : List ((String × String) × Int) → String → String → Option Int
  | [], _, _ => none
  | ((w, p), q) :: rest, wid, pid =>
    if w = wid ∧ p = pid then some q else lookupStock rest wid pid

/-- Write a warehouse_stocks row: replace the row if present (the ORM update
path), otherwise insert a new row (session.add). -/
def setStock : List ((String × String) × Int) → String → String → Int →
    List ((String × String) × Int)
  | [], wid, pid, q => [((wid, pid), q)]
  | ((w, p), q0) :: rest, wid, pid, q =>
    if w = wid ∧ p = pid then ((w, p), q) :: rest
    else ((w, p), q0) :: setStock rest wid pid q

/-- Lookup of a movements row by id, modelling MovementRepository.get_by_id. -/
def lookupMovement : List (String × Movement) → String → Option Movement
  | [], _ => none
  | (k, m) :: rest, mid => if k = mid then some m else lookupMovement rest mid

/-- Write a movements row: replace if present, insert otherwise. -/
def setMovement : List (String × Movement) → String → Movement →
    List (String × Movement)
  | [], mid, m => [(mid, m)]
  | (k, m0) :: rest, mid, m =>
    if k = mid then (k, m) :: rest else (k, m0) :: setMovement rest mid m

/-- Membership test on a list of ids (primary-key existence check). -/
def memberStr : List String → String → Bool
  | [], _ => false
  | x :: rest, s => if x = s then true else memberStr rest s

/-- ProductRepository.get_or_create / WarehouseRepository.get_or_create:
insert the id if no row with that primary key exists. -/
def get_or_create (ids : List String) (i : String) : List String :=
  if memberStr ids i then ids else ids ++ [i]

/-- MovementEventRepository.is_event_processed: true iff a movement_events
row with primary key message_id exists. -/
def is_event_processed (journal : List String) (message_id : String) : Bool :=
  memberStr journal message_id

/-- WarehouseStockRepository.create_or_update_stock: lock and read the
stock row; if it exists, fail when current + delta is negative, otherwise
write the sum; if it does not exist, fail when the delta is negative,
otherwise insert a row holding the delta. -/
def create_or_update_stock (stocks : List ((String × String) × Int))
    (warehouse_id product_id : String) (quantity_delta : Int) :
    Except StockErr (List ((String × String) × Int)) :=
  match lookupStock stocks warehouse_id product_id with
  | some q =>
    let new_quantity := q + quantity_delta
    if new_quantity < 0 then .error .negativeStock
    else .ok (setStock stocks warehouse_id product_id new_quantity)
  | none =>
    if quantity_delta < 0 then .error .negativeStock
    else .ok (setStock stocks warehouse_id product_id quantity_delta)

/-- The row-level body of MovementRepository.create_or_update: start from
the fetched row (or a fresh one fixing id and product_id), overwrite the
half matching the event type, then, when both timestamps are present,
recompute transfer_time (null when arrival precedes departure) and
quantity_difference (null unless both quantities are present). -/
def movement_apply_event (m0 : Option Movement) (e : EventData) : Movement :=
  let base : Movement :=
    match m0 with
    | some m => m
    | none =>
      { id := e.movement_id, product_id := e.product_id,
        source_warehouse_id := none, departure_timestamp := none,
        departure_quantity := none, destination_warehouse_id := none,
        arrival_timestamp := none, arrival_quantity := none,
        transfer_time := none, quantity_difference := none }
  let m1 : Movement :=
    match e.event_type with
    | .departure =>
      { base with source_warehouse_id := some e.warehouse_id,
                  departure_timestamp := some e.timestamp,
                  departure_quantity := some e.quantity }
    | .arrival =>
      { base with destination_warehouse_id := some e.warehouse_id,
                  arrival_timestamp := some e.timestamp,
                  arrival_quantity := some e.quantity }
  match m1.departure_timestamp, m1.arrival_timestamp with
  | some d, some a =>
    let m2 : Movement :=
      if d ≤ a then { m1 with transfer_time := some (a - d) }
      else { m1 with transfer_time := none }
    match m2.departure_quantity, m2.arrival_quantity with
    | some dq, some aq => { m2 with quantity_difference := some (aq - dq) }
    | _, _ => { m2 with quantity_difference := none }
  | _, _ => m1

/-- MovementRepository.create_or_update at the table level: fetch by
movement_id, apply the event to the row, store the result. -/
def movement_create_or_update (movs : List (String × Movement)) (e : EventData) :
    List (String × Movement) :=
  setMovement movs e.movement_id (movement_apply_event (lookupMovement movs e.movement_id) e)

/-- The signed stock delta of warehouse.py line 86: the raw quantity for an
ARRIVAL and its negation for a DEPARTURE. -/
def quantity_delta (e : EventData) : Int :=
  if e.event_type = EventType.arrival then e.quantity else -e.quantity

/-- The stock cache key built by WarehouseService._invalidate_cache. -/
def stockKey (w p : String) : String := "stock:" ++ w ++ ":" ++ p

/-- The movement cache key built by WarehouseService._invalidate_cache. -/
def movementKey (m : String) : String := "movement:" ++ m

/-- WarehouseService._invalidate_cache: delete the stock key, then the
movement key, as the two observable cache actions. -/
def invalidate_cache (warehouse_id product_id movement_id : String) : List SysAction :=
  [SysAction.cacheDelete (stockKey warehouse_id product_id),
   SysAction.cacheDelete (movementKey movement_id)]

/-- WarehouseService.process_movement_event: short-circuit with False when
the journal already holds the message id; otherwise get-or-create the
product and warehouse rows, apply the signed delta to the stock row
(raising NEGATIVE_STOCK as an error), upsert the movement row, insert the
journal row, and issue the two cache deletions, returning True.  The
returned state is the session's uncommitted writes; the returned actions
are the I/O the call itself performed. -/
def process_movement_event (st : DBState) (e : EventData) :
    Except StockErr (Bool × DBState × List SysAction) :=
  if is_event_processed st.journal e.message_id then .ok (false, st, [])
  else
    let st1 : DBState :=
      { st with products := get_or_create st.products e.product_id,
                warehouses := get_or_create st.warehouses e.warehouse_id }
    match create_or_update_stock st1.stocks e.warehouse_id e.product_id (quantity_delta e) with
    | .error err => .error err
    | .ok stocks1 =>
      let st2 : DBState := { st1 with stocks := stocks1 }
      let st3 : DBState := { st2 with movements := movement_create_or_update st2.movements e }
      let st4 : DBState := { st3 with journal := e.message_id :: st3.journal }
      .ok (true, st4, invalidate_cache e.warehouse_id e.product_id e.movement_id)

/-- The transaction block of _process_message_wrapper (kafka_consumer.py
lines 200-233) on already-prepared event data: run
process_movement_event; on True commit the session and report success; on
False (already processed) skip the commit and report success; on a raised
error roll the session back (the committed state is unchanged) and report
failure.  The action list is the observable I/O in program order. -/
def runEventTx (st : DBState) (e : EventData) : Bool × DBState × List SysAction :=
  match process_movement_event st e with
  | .ok (true, st1, acts) => (true, st1, acts ++ [SysAction.dbCommit e.message_id])
  | .ok (false, _, _) => (true, st, [])
  | .error _ => (false, st, [])

/-- A JSON value, the result of json.loads on a message payload. -/
inductive Json where
  | null
  | bool (b : Bool)
  | int (n : Int)
  | str (s : String)
  | arr (xs : List Json)
  | obj (fields : List (String × Json))

/-- A raw Kafka message value: either bytes that fail UTF-8 decoding or
json.loads, or a decoded JSON document. -/
inductive RawValue where
  | undecodable
  | json (j : Json)

/-- One Kafka message of a partition batch: its offset and raw value. -/
structure Msg where
  offset : Nat
  value : RawValue

/-- First JSON object field with the given name. -/
def jsonField : List (String × Json) → String → Option Json
  | [], _ => none
  | (k, v) :: rest, key => if k = key then some v else jsonField rest key

/-- Read a string-typed field of a JSON object. -/
def getStr (j : Json) (key : String) : Option String :=
  match j with
  | .obj fs =>
    match jsonField fs key with
    | some (.str s) => some s
    | _ => none
  | _ => none

/-- Read an integer-typed field of a JSON object. -/
def getInt (j : Json) (key : String) : Option Int :=
  match j with
  | .obj fs =>
    match jsonField fs key with
    | some (.int n) => some n
    | _ => none
  | _ => none

/-- Read an object-typed field of a JSON object. -/
def getObj (j : Json) (key : String) : Option Json :=
  match j with
  | .obj fs =>
    match jsonField fs key with
    | some (.obj fs1) => some (.obj fs1)
    | _ => none
  | _ => none

/-- Python's str.replace("Z", "+00:00") as applied to candidate ISO-8601
timestamps before datetime.fromisoformat. -/
def replaceZ (s : String) : String :=
  ⟨s.data.foldr (fun c acc => if c = 'Z' then "+00:00".data ++ acc else c :: acc) []⟩

/-- Python's str.lower for the event field (ASCII). -/
def lowerStr (s : String) : String :=
  ⟨s.data.map Char.toLower⟩

/-- The field 'data' of a Kafka message after pydantic validation
(app/api/schemas.py MovementEventData): event is stored lowercased. -/
structure MovementEventData where
  movement_id : String
  warehouse_id : String
  timestamp : String
  event : String
  product_id : String
  quantity : Int

/-- A whole Kafka message after pydantic validation
(app/api/schemas.py KafkaMessage). -/
structure KafkaMessage where
  id : String
  source : String
  specversion : String
  type : String
  datacontenttype : String
  dataschema : String
  time : Int
  subject : String
  destination : String
  data : MovementEventData

/-- MovementEventData.model_validate: all six data fields must be present
and well-typed; timestamp (with Z replaced by +00:00) must parse under the
ISO-8601 parser; event, lowercased, must be "arrival" or "departure" and
is stored lowercased. -/
def validateMovementEventData (parseIso : String → Option Rat) (j : Json) :
    Option MovementEventData :=
  match getStr j "movement_id", getStr j "warehouse_id", getStr j "timestamp",
        getStr j "event", getStr j "product_id", getInt j "quantity" with
  | some mid, some wid, some ts, some ev, some pid, some q =>
    if (parseIso (replaceZ ts)).isSome then
      if lowerStr ev = "arrival" ∨ lowerStr ev = "departure" then
        some { movement_id := mid, warehouse_id := wid, timestamp := ts,
               event := lowerStr ev, product_id := pid, quantity := q }
      else none
    else none
  | _, _, _, _, _, _ => none

/-- KafkaMessage.model_validate: the envelope fields must be present and
well-typed, time must be non-negative, and data must validate as
MovementEventData. -/
def validateKafkaMessage (parseIso : String → Option Rat) (j : Json) :
    Option KafkaMessage :=
  match getStr j "id", getStr j "source", getStr j "specversion",
        getStr j "type", getStr j "datacontenttype", getStr j "dataschema",
        getInt j "time", getStr j "subject", getStr j "destination",
        getObj j "data" with
  | some i, some src, some sv, some ty, some dct, some ds, some t,
    some subj, some dest, some dj =>
    if t < 0 then none
    else
      match validateMovementEventData parseIso dj with
      | some d =>
        some { id := i, source := src, specversion := sv, type := ty,
               datacontenttype := dct, dataschema := ds, time := t,
               subject := subj, destination := dest, data := d }
      | none => none
  | _, _, _, _, _, _, _, _, _, _ => none

/-- EventType(value) on the validated, lowercased event string. -/
def eventTypeOf (s : String) : Option EventType :=
  if s = "arrival" then some EventType.arrival
  else if s = "departure" then some EventType.departure
  else none

/-- KafkaConsumerService._prepare_event_data: convert the envelope time
from milliseconds to an instant, the event string to EventType, and parse
the data timestamp (Z replaced by +00:00, naive values read as UTC);
any failure yields None and the message is skipped. -/
def prepare_event_data (parseIso : String → Option Rat) (km : KafkaMessage) :
    Option EventData :=
  match eventTypeOf km.data.event with
  | none => none
  | some et =>
    match parseIso (replaceZ km.data.timestamp) with
    | none => none
    | some ts =>
      some { message_id := km.id, message_source := km.source,
             message_time := (km.time : Rat) / 1000,
             movement_id := km.data.movement_id,
             warehouse_id := km.data.warehouse_id,
             timestamp := ts, event_type := et,
             product_id := km.data.product_id,
             quantity := km.data.quantity }

/-- KafkaConsumerService._process_message_wrapper: decode failure,
validation failure and preparation failure are terminal (True, no state
change, no I/O); otherwise run the transaction block.  dbFail models a
SQLAlchemyError raised by the database during this message's transaction,
which is rolled back and reported as failure (False). -/
def process_message_wrapper (parseIso : String → Option Rat) (dbFail : Bool)
    (st : DBState) (raw : RawValue) : Bool × DBState × List SysAction :=
  match raw with
  | .undecodable => (true, st, [])
  | .json j =>
    match validateKafkaMessage parseIso j with
    | none => (true, st, [])
    | some km =>
      match prepare_event_data parseIso km with
      | none => (true, st, [])
      | some e =>
        if dbFail then (false, st, [])
        else runEventTx st e

/-- The per-partition message loop of _consume_messages (lines 120-137):
process each message in offset order, updating last_processed_offset only
on success; the loop does not stop on a failed message.  Returns the
state, the final last_processed_offset and the I/O actions. -/
def consumeBatchGo (parseIso : String → Option Rat) (transientFail : Nat → Bool)
    (st : DBState) (last : Int) : List Msg → DBState × Int × List SysAction
  | [] => (st, last, [])
  | m :: rest =>
    let r := process_message_wrapper parseIso (transientFail m.offset) st m.value
    let last1 := if r.1 then (m.offset : Int) else last
    let res := consumeBatchGo parseIso transientFail r.2.1 last1 rest
    (res.1, res.2.1, r.2.2 ++ res.2.2)

/-- One partition batch of _consume_messages: last_processed_offset starts
at -1; after the loop, if it is non-negative, commit
last_processed_offset + 1 for the partition. -/
def consumeBatch (parseIso : String → Option Rat) (transientFail : Nat → Bool)
    (st : DBState) (msgs : List Msg) : DBState × List SysAction :=
  let r := consumeBatchGo parseIso transientFail st (-1) msgs
  if 0 ≤ r.2.1 then (r.1, r.2.2 ++ [SysAction.offsetCommit (r.2.1 + 1)])
  else (r.1, r.2.2)

/-- The consumer's poll loop restricted to one partition: a sequence of
batches processed in order against the committed state. -/
def runBatches (parseIso : String → Option Rat) (transientFail : Nat → Bool)
    (st : DBState) : List (List Msg) → DBState
  | [] => st
  | b :: rest => runBatches parseIso transientFail (consumeBatch parseIso transientFail st b).1 rest

/-- Redelivery of the same prepared event: iterate the transaction block,
keeping the committed state it leaves behind. -/
def replayTx (st : DBState) (e : EventData) : Nat → DBState
  | 0 => st
  | n + 1 => replayTx (runEventTx st e).2.1 e n

/-- A concrete ISO-8601 parser for concrete runs: three known instants
(seconds since epoch), everything else unparsable. -/
def pi1 : String → Option Rat := fun s =>
  if s = "T0" then some 0
  else if s = "T1" then some 100
  else if s = "T2" then some 3700
  else none

/-- The empty committed database. -/
def db0 : DBState :=
  { products := [], warehouses := [], stocks := [], movements := [], journal := [] }

/-- A well-formed message envelope as produced upstream (section 6 of the
spec), with the given id, data fields and quantity. -/
def mkMsgJson (i mid wid ts ev pid : String) (q : Int) : Json :=
  Json.obj [("id", Json.str i), ("source", Json.str "wms"),
    ("specversion", Json.str "1.0"), ("type", Json.str "movement"),
    ("datacontenttype", Json.str "application/json"),
    ("dataschema", Json.str "movement.v1"), ("time", Json.int 1000),
    ("subject", Json.str "subj"), ("destination", Json.str "wh"),
    ("data", Json.obj [("movement_id", Json.str mid), ("warehouse_id", Json.str wid),
      ("timestamp", Json.str ts), ("event", Json.str ev),
      ("product_id", Json.str pid), ("quantity", Json.int q)])]

/-- Valid ARRIVAL of 100 units of P1 at W1 (movement M1, message msg-1). -/
def msgJson1 : Json := mkMsgJson "msg-1" "M1" "W1" "T0" "arrival" "P1" 100

/-- Valid ARRIVAL of 7 units of P2 at W2 (movement M2, message msg-2). -/
def msgJson2 : Json := mkMsgJson "msg-2" "M2" "W2" "T1" "arrival" "P2" 7

/-- Valid DEPARTURE of 10 units of P1 from W1 (movement M3, message msg-3);
against an empty stock table this raises NEGATIVE_STOCK. -/
def msgJson3 : Json := mkMsgJson "msg-3" "M3" "W1" "T1" "departure" "P1" 10

/-- Valid ARRIVAL of 1 unit of P4 at W4 (movement M4, message msg-4). -/
def msgJson4 : Json := mkMsgJson "msg-4" "M4" "W4" "T0" "arrival" "P4" 1

/-- Claim C1: cache invalidation never runs before the corresponding
transaction commits.  The code violates this: process_movement_event
performs the two cache deletions itself (warehouse.py line 107) and only
then returns to _process_message_wrapper, which commits the session
(kafka_consumer.py line 209).  Evaluating the consumer on a valid ARRIVAL
message from the empty database shows both cache deletions strictly
before the transaction commit in the observable I/O order. -/
theorem c1_invalidation_precedes_commit :
    (process_message_wrapper pi1 false db0 (RawValue.json msgJson1)).2.2
      = [SysAction.cacheDelete "stock:W1:P1", SysAction.cacheDelete "movement:M1",
         SysAction.dbCommit "msg-1"] := by
  decide

/-- Claim C2: on a transient failure the consumer should stop the
partition batch and never commit an offset past the failed message.  The
code violates this: the loop in _consume_messages does not break on
failure, so with a transient database error on the message at offset 0
and a valid message at offset 1, the second message is fully applied (its
stock row, journal row and commit are all present) and offset 2 is
committed, past the failed offset 0. -/
theorem c2_offset_commits_past_transient_failure :
    (consumeBatch pi1 (fun off => off == 0) db0
        [{ offset := 0, value := RawValue.json msgJson1 },
         { offset := 1, value := RawValue.json msgJson2 }]).2
      = [SysAction.cacheDelete "stock:W2:P2", SysAction.cacheDelete "movement:M2",
         SysAction.dbCommit "msg-2", SysAction.offsetCommit 2]
    ∧ lookupStock (consumeBatch pi1 (fun off => off == 0) db0
        [{ offset := 0, value := RawValue.json msgJson1 },
         { offset := 1, value := RawValue.json msgJson2 }]).1.stocks "W2" "P2" = some 7
    ∧ is_event_processed (consumeBatch pi1 (fun off => off == 0) db0
        [{ offset := 0, value := RawValue.json msgJson1 },
         { offset := 1, value := RawValue.json msgJson2 }]).1.journal "msg-1" = false := by
  decide

/-- Claim C9: on NEGATIVE_STOCK the transaction is rolled back - no
journal row, no stock row, no movement row for the failed event - which
the code honours; but the claim also requires the offset for that message
not to advance, and the code violates that: with the NEGATIVE_STOCK
departure at offset 0 followed by a valid arrival at offset 1, the batch
commits offset 2, past the failed message. -/
theorem c9_rollback_but_offset_advances :
    is_event_processed (consumeBatch pi1 (fun _ => false) db0
        [{ offset := 0, value := RawValue.json msgJson3 },
         { offset := 1, value := RawValue.json msgJson4 }]).1.journal "msg-3" = false
    ∧ lookupStock (consumeBatch pi1 (fun _ => false) db0
        [{ offset := 0, value := RawValue.json msgJson3 },
         { offset := 1, value := RawValue.json msgJson4 }]).1.stocks "W1" "P1" = none
    ∧ lookupMovement (consumeBatch pi1 (fun _ => false) db0
        [{ offset := 0, value := RawValue.json msgJson3 },
         { offset := 1, value := RawValue.json msgJson4 }]).1.movements "M3" = none
    ∧ (consumeBatch pi1 (fun _ => false) db0
        [{ offset := 0, value := RawValue.json msgJson3 },
         { offset := 1, value := RawValue.json msgJson4 }]).2
      = [SysAction.cacheDelete "stock:W4:P4", SysAction.cacheDelete "movement:M4",
         SysAction.dbCommit "msg-4", SysAction.offsetCommit 2] := by
  decide

theorem lookupStock_setStock (l : List ((String × String) × Int))
    (wid pid : String) (q : Int) (w2 p2 : String) :
    lookupStock (setStock l wid pid q) w2 p2
      = if wid = w2 ∧ pid = p2 then some q else lookupStock l w2 p2 := by
  induction l with
  | nil => simp [setStock, lookupStock]
  | cons hd tl ih =>
    obtain ⟨⟨w, p⟩, q0⟩ := hd
    by_cases hks : w = wid ∧ p = pid
    · obtain ⟨rfl, rfl⟩ := hks
      by_cases hq : w = w2 ∧ p = p2 <;> simp [setStock, lookupStock, hq]
    · by_cases hq : w = w2 ∧ p = p2
      · obtain ⟨rfl, rfl⟩ := hq
        have hne : ¬(wid = w ∧ pid = p) := fun hc =>
          hks ⟨hc.1.symm, hc.2.symm⟩
        simp [setStock, hks, lookupStock, hne]
      · simp [setStock, hks, lookupStock, hq, ih]

theorem lookupMovement_setMovement (l : List (String × Movement))
    (mid : String) (m : Movement) (k2 : String) :
    lookupMovement (setMovement l mid m) k2
      = if mid = k2 then some m else lookupMovement l k2 := by
  induction l with
  | nil => simp [setMovement, lookupMovement]
  | cons hd tl ih =>
    obtain ⟨k, m0⟩ := hd
    by_cases hks : k = mid
    · subst hks
      by_cases hq : k = k2 <;> simp [setMovement, lookupMovement, hq]
    · by_cases hq : k = k2
      · subst hq
        have hne : ¬(mid = k) := fun hc => hks hc.symm
        simp [setMovement, hks, lookupMovement, hne]
      · simp [setMovement, hks, lookupMovement, hq, ih]

theorem memberStr_iff (l : List String) (s : String) :
    memberStr l s = true ↔ s ∈ l := by
  induction l with
  | nil => simp [memberStr]
  | cons x tl ih =>
    by_cases hx : x = s
    · subst hx; simp [memberStr]
    · have hsx : ¬s = x := fun h => hx h.symm
      simp [memberStr, hx, ih, hsx]

/-- Claim C3: create_or_update_stock on an existing row of quantity q
fails with NEGATIVE_STOCK exactly when q + delta is negative and
otherwise writes q + delta; on a missing row it fails exactly when delta
is negative and otherwise inserts a row holding delta. -/
theorem c3_create_or_update_stock_semantics
    (stocks : List ((String × String) × Int)) (w p : String) (d : Int) :
    (∀ q, lookupStock stocks w p = some q →
        ((q + d < 0 →
            create_or_update_stock stocks w p d = Except.error StockErr.negativeStock) ∧
         (0 ≤ q + d →
            create_or_update_stock stocks w p d = Except.ok (setStock stocks w p (q + d)) ∧
            lookupStock (setStock stocks w p (q + d)) w p = some (q + d)))) ∧
    (lookupStock stocks w p = none →
        ((d < 0 →
            create_or_update_stock stocks w p d = Except.error StockErr.negativeStock) ∧
         (0 ≤ d →
            create_or_update_stock stocks w p d = Except.ok (setStock stocks w p d) ∧
            lookupStock (setStock stocks w p d) w p = some d))) := by
  constructor
  · intro q hq
    refine ⟨fun hneg => ?_, fun hge => ?_⟩
    · simp [create_or_update_stock, hq, hneg]
    · have hnlt : ¬(q + d < 0) := not_lt.mpr hge
      simp [create_or_update_stock, hq, hnlt, lookupStock_setStock]
  · intro hq
    refine ⟨fun hneg => ?_, fun hge => ?_⟩
    · simp [create_or_update_stock, hq, hneg]
    · have hnlt : ¬(d < 0) := not_lt.mpr hge
      simp [create_or_update_stock, hq, hnlt, lookupStock_setStock]

/-- Witness for C3: on a row of 5, a delta of -3 succeeds and writes 2. -/
theorem c3_witness :
    create_or_update_stock [(("W", "P"), 5)] "W" "P" (-3)
        = Except.ok (setStock [(("W", "P"), 5)] "W" "P" (5 + -3))
    ∧ lookupStock (setStock [(("W", "P"), 5)] "W" "P" (5 + -3)) "W" "P" = some (5 + -3) :=
  ((c3_create_or_update_stock_semantics [(("W", "P"), 5)] "W" "P" (-3)).1
    5 (by decide)).2 (by decide)

/-- I1: every stock row of a state is non-negative. -/
def stocksNonneg (st : DBState) : Prop :=
  ∀ w p q, lookupStock st.stocks w p = some q → 0 ≤ q

theorem create_or_update_stock_nonneg
    {stocks stocks1 : List ((String × String) × Int)} {w p : String} {d : Int}
    (h : ∀ w2 p2 q, lookupStock stocks w2 p2 = some q → 0 ≤ q)
    (hok : create_or_update_stock stocks w p d = Except.ok stocks1) :
    ∀ w2 p2 q, lookupStock stocks1 w2 p2 = some q → 0 ≤ q := by
  intro w2 p2 q hq
  unfold create_or_update_stock at hok
  cases hl : lookupStock stocks w p with
  | some q0 =>
    rw [hl] at hok
    by_cases hneg : q0 + d < 0
    · simp [hneg] at hok
    · simp [hneg] at hok
      subst hok
      rw [lookupStock_setStock] at hq
      by_cases hk : w = w2 ∧ p = p2
      · rw [if_pos hk] at hq
        cases hq
        exact not_lt.mp hneg
      · rw [if_neg hk] at hq
        exact h w2 p2 q hq
  | none =>
    rw [hl] at hok
    by_cases hneg : d < 0
    · simp [hneg] at hok
    · simp [hneg] at hok
      subst hok
      rw [lookupStock_setStock] at hq
      by_cases hk : w = w2 ∧ p = p2
      · rw [if_pos hk] at hq
        cases hq
        exact not_lt.mp hneg
      · rw [if_neg hk] at hq
        exact h w2 p2 q hq

theorem process_movement_event_nonneg {st : DBState} {e : EventData}
    {b : Bool} {st1 : DBState} {acts : List SysAction}
    (h : stocksNonneg st)
    (hok : process_movement_event st e = Except.ok (b, st1, acts)) :
    stocksNonneg st1 := by
  unfold process_movement_event at hok
  by_cases hp : is_event_processed st.journal e.message_id
  · rw [if_pos hp] at hok
    simp only [Except.ok.injEq, Prod.mk.injEq] at hok
    obtain ⟨-, h2, -⟩ := hok
    subst h2
    exact h
  · rw [if_neg hp] at hok
    cases hcs : create_or_update_stock st.stocks e.warehouse_id e.product_id (quantity_delta e) with
    | error err =>
      simp only [hcs] at hok
      exact Except.noConfusion hok
    | ok stocks1 =>
      simp only [hcs, Except.ok.injEq, Prod.mk.injEq] at hok
      obtain ⟨-, h2, -⟩ := hok
      subst h2
      intro w2 p2 q hq
      exact create_or_update_stock_nonneg h hcs w2 p2 q hq

theorem runEventTx_nonneg (st : DBState) (e : EventData)
    (h : stocksNonneg st) : stocksNonneg (runEventTx st e).2.1 := by
  unfold runEventTx
  cases hpe : process_movement_event st e with
  | error err => exact h
  | ok r =>
    obtain ⟨b, st2, acts⟩ := r
    cases b with
    | false => exact h
    | true => exact process_movement_event_nonneg h hpe

theorem process_message_wrapper_nonneg (parseIso : String → Option Rat)
    (dbFail : Bool) (st : DBState) (raw : RawValue)
    (h : stocksNonneg st) :
    stocksNonneg (process_message_wrapper parseIso dbFail st raw).2.1 := by
  cases raw with
  | undecodable => exact h
  | json j =>
    cases hv : validateKafkaMessage parseIso j with
    | none => simpa [process_message_wrapper, hv] using h
    | some km =>
      cases hpre : prepare_event_data parseIso km with
      | none => simpa [process_message_wrapper, hv, hpre] using h
      | some e =>
        cases dbFail with
        | true => simpa [process_message_wrapper, hv, hpre] using h
        | false =>
          simpa [process_message_wrapper, hv, hpre] using runEventTx_nonneg st e h

theorem consumeBatchGo_nonneg (parseIso : String → Option Rat)
    (tf : Nat → Bool) (msgs : List Msg) :
    ∀ (st : DBState) (last : Int), stocksNonneg st →
      stocksNonneg (consumeBatchGo parseIso tf st last msgs).1 := by
  induction msgs with
  | nil => intro st last h; exact h
  | cons m rest ih =>
    intro st last h
    unfold consumeBatchGo
    exact ih _ _ (process_message_wrapper_nonneg parseIso (tf m.offset) st m.value h)

/-- Claim C4: starting from any state whose stock rows are all
non-negative, after any sequence of consumed batches every stock row of
the committed state is still non-negative; no execution commits a
negative quantity. -/
theorem c4_nonnegative_stock_invariant (parseIso : String → Option Rat)
    (tf : Nat → Bool) (batches : List (List Msg)) (st : DBState)
    (h : stocksNonneg st) :
    stocksNonneg (runBatches parseIso tf st batches) := by
  induction batches generalizing st with
  | nil => exact h
  | cons b rest ih =>
    unfold runBatches
    apply ih
    unfold consumeBatch
    by_cases hc : 0 ≤ (consumeBatchGo parseIso tf st (-1) b).2.1
    · simp only [hc, if_pos]
      exact consumeBatchGo_nonneg parseIso tf b st (-1) h
    · simp only [hc, if_neg, not_false_iff]
      exact consumeBatchGo_nonneg parseIso tf b st (-1) h

/-- Witness for C4: the invariant holds of the state left by a concrete
one-batch run from the empty database. -/
theorem c4_witness :
    stocksNonneg (runBatches pi1 (fun _ => false) db0
      [[{ offset := 0, value := RawValue.json msgJson1 }]]) :=
  c4_nonnegative_stock_invariant pi1 (fun _ => false)
    [[{ offset := 0, value := RawValue.json msgJson1 }]] db0
    (fun _ _ _ hq => Option.noConfusion hq)

/-- The prepared event of msgJson1 (ARRIVAL of 100 P1 at W1, message msg-1). -/
def ed1 : EventData :=
  { message_id := "msg-1", message_source := "wms", message_time := 1,
    movement_id := "M1", warehouse_id := "W1", timestamp := 0,
    event_type := EventType.arrival, product_id := "P1", quantity := 100 }

/-- The movement row M1 after the single ARRIVAL ed1. -/
def mv1 : Movement :=
  { id := "M1", product_id := "P1", source_warehouse_id := none,
    departure_timestamp := none, departure_quantity := none,
    destination_warehouse_id := some "W1", arrival_timestamp := some 0,
    arrival_quantity := some 100, transfer_time := none,
    quantity_difference := none }

/-- The committed database after processing ed1 from the empty database. -/
def stAfter1 : DBState :=
  { products := ["P1"], warehouses := ["W1"], stocks := [(("W1", "P1"), 100)],
    movements := [("M1", mv1)], journal := ["msg-1"] }

/-- Claim C5: once a message's transaction has committed, its id is in the
journal; any redelivery of the same message sees is_processed, performs no
writes (the state and the action list are unchanged and empty), is treated
as success by the consumer, and replaying it any number of times leaves
the committed state exactly as after the first processing. -/
theorem c5_idempotent_replay (st st1 : DBState) (e : EventData) (acts : List SysAction)
    (h : process_movement_event st e = Except.ok (true, st1, acts)) :
    is_event_processed st1.journal e.message_id = true ∧
    process_movement_event st1 e = Except.ok (false, st1, []) ∧
    runEventTx st1 e = (true, st1, []) ∧
    ∀ n, replayTx st1 e n = st1 := by
  have hj : is_event_processed st1.journal e.message_id = true := by
    unfold process_movement_event at h
    by_cases hp : is_event_processed st.journal e.message_id
    · rw [if_pos hp] at h
      simp only [Except.ok.injEq, Prod.mk.injEq] at h
      exact Bool.noConfusion h.1
    · rw [if_neg hp] at h
      cases hcs : create_or_update_stock st.stocks e.warehouse_id e.product_id (quantity_delta e) with
      | error err =>
        simp only [hcs] at h
        exact Except.noConfusion h
      | ok stocks1 =>
        simp only [hcs, Except.ok.injEq, Prod.mk.injEq] at h
        obtain ⟨-, h2, -⟩ := h
        subst h2
        simp [is_event_processed, memberStr]
  have hproc : process_movement_event st1 e = Except.ok (false, st1, []) := by
    unfold process_movement_event
    rw [if_pos hj]
  have htx : runEventTx st1 e = (true, st1, []) := by
    unfold runEventTx
    rw [hproc]
  refine ⟨hj, hproc, htx, ?_⟩
  intro n
  induction n with
  | zero => rfl
  | succ k ih =>
    show replayTx (runEventTx st1 e).2.1 e k = st1
    rw [htx]
    exact ih

/-- Witness for C5: redelivering msg-1 against the state its commit left
behind is a no-op reported as already processed. -/
theorem c5_witness :
    process_movement_event stAfter1 ed1 = Except.ok (false, stAfter1, []) :=
  (c5_idempotent_replay db0 stAfter1 ed1
    (invalidate_cache "W1" "P1" "M1") rfl).2.1

theorem movement_apply_event_some_dep (m : Movement) (e : EventData)
    (he : e.event_type = EventType.departure) :
    movement_apply_event (some m) e =
      match m.arrival_timestamp with
      | none =>
        { m with source_warehouse_id := some e.warehouse_id,
                 departure_timestamp := some e.timestamp,
                 departure_quantity := some e.quantity }
      | some a =>
        match m.arrival_quantity with
        | some aq =>
          { m with source_warehouse_id := some e.warehouse_id,
                   departure_timestamp := some e.timestamp,
                   departure_quantity := some e.quantity,
                   transfer_time := if e.timestamp ≤ a then some (a - e.timestamp) else none,
                   quantity_difference := some (aq - e.quantity) }
        | none =>
          { m with source_warehouse_id := some e.warehouse_id,
                   departure_timestamp := some e.timestamp,
                   departure_quantity := some e.quantity,
                   transfer_time := if e.timestamp ≤ a then some (a - e.timestamp) else none,
                   quantity_difference := none } := by
  obtain ⟨i0, p0, sw0, dt0, dq0, dw0, at0, aq0, tt0, qd0⟩ := m
  cases at0 with
  | none => cases aq0 <;> simp only [movement_apply_event, he]
  | some a =>
    cases aq0 <;>
      simp only [movement_apply_event, he] <;>
      by_cases hts : e.timestamp ≤ a <;>
      simp [hts]

theorem movement_apply_event_some_arr (m : Movement) (e : EventData)
    (he : e.event_type = EventType.arrival) :
    movement_apply_event (some m) e =
      match m.departure_timestamp with
      | none =>
        { m with destination_warehouse_id := some e.warehouse_id,
                 arrival_timestamp := some e.timestamp,
                 arrival_quantity := some e.quantity }
      | some d =>
        match m.departure_quantity with
        | some dq =>
          { m with destination_warehouse_id := some e.warehouse_id,
                   arrival_timestamp := some e.timestamp,
                   arrival_quantity := some e.quantity,
                   transfer_time := if d ≤ e.timestamp then some (e.timestamp - d) else none,
                   quantity_difference := some (e.quantity - dq) }
        | none =>
          { m with destination_warehouse_id := some e.warehouse_id,
                   arrival_timestamp := some e.timestamp,
                   arrival_quantity := some e.quantity,
                   transfer_time := if d ≤ e.timestamp then some (e.timestamp - d) else none,
                   quantity_difference := none } := by
  obtain ⟨i0, p0, sw0, dt0, dq0, dw0, at0, aq0, tt0, qd0⟩ := m
  cases dt0 with
  | none => cases dq0 <;> simp only [movement_apply_event, he]
  | some d =>
    cases dq0 <;>
      simp only [movement_apply_event, he] <;>
      by_cases hts : d ≤ e.timestamp <;>
      simp [hts]

theorem movement_apply_event_none_dep (e : EventData)
    (he : e.event_type = EventType.departure) :
    movement_apply_event none e =
      { id := e.movement_id, product_id := e.product_id,
        source_warehouse_id := some e.warehouse_id,
        departure_timestamp := some e.timestamp,
        departure_quantity := some e.quantity,
        destination_warehouse_id := none, arrival_timestamp := none,
        arrival_quantity := none, transfer_time := none,
        quantity_difference := none } := by
  simp only [movement_apply_event, he]

theorem movement_apply_event_none_arr (e : EventData)
    (he : e.event_type = EventType.arrival) :
    movement_apply_event none e =
      { id := e.movement_id, product_id := e.product_id,
        source_warehouse_id := none, departure_timestamp := none,
        departure_quantity := none,
        destination_warehouse_id := some e.warehouse_id,
        arrival_timestamp := some e.timestamp,
        arrival_quantity := some e.quantity, transfer_time := none,
        quantity_difference := none } := by
  simp only [movement_apply_event, he]

/-- The six half fields of a Movement row: the departure half and the
arrival half (section 3 of the spec). -/
def halfFields (m : Movement) :
    Option String × Option Rat × Option Int × Option String × Option Rat × Option Int :=
  (m.source_warehouse_id, m.departure_timestamp, m.departure_quantity,
   m.destination_warehouse_id, m.arrival_timestamp, m.arrival_quantity)

/-- The two derived fields of a Movement row. -/
def derivedFields (m : Movement) : Option Rat × Option Int :=
  (m.transfer_time, m.quantity_difference)

theorem movement_apply_event_comm (m0 : Option Movement) (dep arr : EventData)
    (hd : dep.event_type = EventType.departure)
    (ha : arr.event_type = EventType.arrival) :
    halfFields (movement_apply_event (some (movement_apply_event m0 dep)) arr)
      = halfFields (movement_apply_event (some (movement_apply_event m0 arr)) dep) ∧
    derivedFields (movement_apply_event (some (movement_apply_event m0 dep)) arr)
      = derivedFields (movement_apply_event (some (movement_apply_event m0 arr)) dep) := by
  cases m0 with
  | none =>
    rw [movement_apply_event_none_dep dep hd, movement_apply_event_none_arr arr ha,
        movement_apply_event_some_dep _ dep hd, movement_apply_event_some_arr _ arr ha]
    simp [halfFields, derivedFields]
  | some m =>
    obtain ⟨i0, p0, sw0, dt0, dq0, dw0, at0, aq0, tt0, qd0⟩ := m
    rw [movement_apply_event_some_dep _ dep hd, movement_apply_event_some_arr _ arr ha]
    cases at0 <;> cases aq0 <;> cases dt0 <;> cases dq0 <;>
      rw [movement_apply_event_some_dep _ dep hd, movement_apply_event_some_arr _ arr ha] <;>
      simp [halfFields, derivedFields]

/-- Claim C6: for a fixed DEPARTURE and ARRIVAL half-event of the same
movement_id, applying them to the Movement Pairing Store in either order
yields a Movement row with the same half fields and the same derived
fields. -/
theorem c6_pairing_order_independent (movs : List (String × Movement))
    (dep arr : EventData)
    (hd : dep.event_type = EventType.departure)
    (ha : arr.event_type = EventType.arrival)
    (hm : dep.movement_id = arr.movement_id) :
    ∀ m1 m2,
      lookupMovement (movement_create_or_update (movement_create_or_update movs dep) arr)
          arr.movement_id = some m1 →
      lookupMovement (movement_create_or_update (movement_create_or_update movs arr) dep)
          dep.movement_id = some m2 →
      halfFields m1 = halfFields m2 ∧ derivedFields m1 = derivedFields m2 := by
  intro m1 m2 h1 h2
  unfold movement_create_or_update at h1 h2
  rw [hm] at h1 h2
  simp only [lookupMovement_setMovement, if_pos rfl, if_true, Option.some.injEq] at h1 h2
  subst h1
  subst h2
  exact movement_apply_event_comm (lookupMovement movs arr.movement_id) dep arr hd ha

/-- Departure half of movement M5: 30 units of P1 leave W1 at t = 100. -/
def edDep5 : EventData :=
  { message_id := "msg-5d", message_source := "wms", message_time := 1,
    movement_id := "M5", warehouse_id := "W1", timestamp := 100,
    event_type := EventType.departure, product_id := "P1", quantity := 30 }

/-- Arrival half of movement M5: 28 units of P1 reach W2 at t = 3700. -/
def edArr5 : EventData :=
  { message_id := "msg-5a", message_source := "wms", message_time := 1,
    movement_id := "M5", warehouse_id := "W2", timestamp := 3700,
    event_type := EventType.arrival, product_id := "P1", quantity := 28 }

/-- The completed movement row M5 (either application order). -/
def mv5 : Movement :=
  { id := "M5", product_id := "P1", source_warehouse_id := some "W1",
    departure_timestamp := some 100, departure_quantity := some 30,
    destination_warehouse_id := some "W2", arrival_timestamp := some 3700,
    arrival_quantity := some 28, transfer_time := some (3700 - 100),
    quantity_difference := some (28 - 30) }

/-- Witness for C6: both application orders of M5's halves against the
empty store yield the row mv5. -/
theorem c6_witness :
    halfFields mv5 = halfFields mv5 ∧ derivedFields mv5 = derivedFields mv5 :=
  c6_pairing_order_independent [] edDep5 edArr5 rfl rfl rfl mv5 mv5 rfl rfl

/-- Claim C7: in any row produced by the pairing store, when both halves
are present, transfer_time is the timestamp difference in seconds when
the arrival is not earlier than the departure and null otherwise, and
quantity_difference is arrival quantity minus departure quantity whenever
both quantities are present. -/
theorem c7_derived_field_correctness (m0 : Option Movement) (e : EventData) :
    ∀ d a, (movement_apply_event m0 e).departure_timestamp = some d →
      (movement_apply_event m0 e).arrival_timestamp = some a →
      ((d ≤ a → (movement_apply_event m0 e).transfer_time = some (a - d)) ∧
       (a < d → (movement_apply_event m0 e).transfer_time = none) ∧
       (∀ dq aq, (movement_apply_event m0 e).departure_quantity = some dq →
          (movement_apply_event m0 e).arrival_quantity = some aq →
          (movement_apply_event m0 e).quantity_difference = some (aq - dq))) := by
  cases he : e.event_type with
  | departure =>
    cases m0 with
    | none =>
      rw [movement_apply_event_none_dep e he]
      intro d a hdt hat
      exact absurd hat (by simp)
    | some m =>
      obtain ⟨i0, p0, sw0, dt0, dq0, dw0, at0, aq0, tt0, qd0⟩ := m
      rw [movement_apply_event_some_dep _ e he]
      cases at0 <;> cases aq0 <;> intro d a hdt hat <;>
        simp only [Option.some.injEq] at hdt hat <;>
        (try exact absurd hat (by simp)) <;>
        subst hdt <;> subst hat <;>
        refine ⟨fun hle => by simp [hle], fun hlt => by simp [not_le.mpr hlt], ?_⟩ <;>
        intro dq aq hdq haq <;> simp_all
  | arrival =>
    cases m0 with
    | none =>
      rw [movement_apply_event_none_arr e he]
      intro d a hdt hat
      exact absurd hdt (by simp)
    | some m =>
      obtain ⟨i0, p0, sw0, dt0, dq0, dw0, at0, aq0, tt0, qd0⟩ := m
      rw [movement_apply_event_some_arr _ e he]
      cases dt0 <;> cases dq0 <;> intro d a hdt hat <;>
        simp only [Option.some.injEq] at hdt hat <;>
        (try exact absurd hdt (by simp)) <;>
        subst hdt <;> subst hat <;>
        refine ⟨fun hle => by simp [hle], fun hlt => by simp [not_le.mpr hlt], ?_⟩ <;>
        intro dq aq hdq haq <;> simp_all

/-- Movement M5 after its departure half only. -/
def mv5dep : Movement :=
  { id := "M5", product_id := "P1", source_warehouse_id := some "W1",
    departure_timestamp := some 100, departure_quantity := some 30,
    destination_warehouse_id := none, arrival_timestamp := none,
    arrival_quantity := none, transfer_time := none,
    quantity_difference := none }

/-- Witness for C7: completing M5 with its arrival half gives a transfer
time of 3700 - 100 seconds. -/
theorem c7_witness :
    (movement_apply_event (some mv5dep) edArr5).transfer_time = some (3700 - 100) :=
  (c7_derived_field_correctness (some mv5dep) edArr5 100 3700 rfl rfl).1
    (by decide)

/-- Claim C8: a raw message that fails UTF-8/JSON decoding, envelope or
data schema validation, or timestamp preparation is terminal: the wrapper
reports success without touching the database state and without any cache
or commit I/O, and a batch holding such a message commits the offset past
it. -/
theorem c8_malformed_messages_terminal (parseIso : String → Option Rat)
    (st : DBState) (raw : RawValue)
    (h : raw = RawValue.undecodable
       ∨ (∃ j, raw = RawValue.json j ∧ validateKafkaMessage parseIso j = none)
       ∨ (∃ j km, raw = RawValue.json j ∧ validateKafkaMessage parseIso j = some km ∧
            prepare_event_data parseIso km = none)) :
    (∀ dbFail, process_message_wrapper parseIso dbFail st raw = (true, st, [])) ∧
    (∀ tf off, consumeBatch parseIso tf st [{ offset := off, value := raw }]
        = (st, [SysAction.offsetCommit ((off : Int) + 1)])) := by
  have hw : ∀ dbFail, process_message_wrapper parseIso dbFail st raw = (true, st, []) := by
    intro dbFail
    rcases h with rfl | ⟨j, rfl, hv⟩ | ⟨j, km, rfl, hv, hp⟩
    · rfl
    · simp [process_message_wrapper, hv]
    · simp [process_message_wrapper, hv, hp]
  refine ⟨hw, ?_⟩
  intro tf off
  simp [consumeBatch, consumeBatchGo, hw (tf off), Int.natCast_nonneg]

/-- Witness for C8: an undecodable payload is skipped with no effects. -/
theorem c8_witness :
    process_message_wrapper pi1 false db0 RawValue.undecodable = (true, db0, []) :=
  (c8_malformed_messages_terminal pi1 db0 RawValue.undecodable (Or.inl rfl)).1 false

/-- A message carrying a negative quantity (-5) on a DEPARTURE event. -/
def msgJsonNeg : Json := mkMsgJson "msg-9" "M9" "W9" "T0" "departure" "P9" (-5)

/-- The prepared event of msgJsonNeg. -/
def edNeg : EventData :=
  { message_id := "msg-9", message_source := "wms", message_time := 1,
    movement_id := "M9", warehouse_id := "W9", timestamp := 0,
    event_type := EventType.departure, product_id := "P9", quantity := -5 }

/-- Claim C10: no validation layer rejects a negative quantity - the
concrete message msgJsonNeg with quantity -5 passes envelope and schema
validation and preparation with its quantity unchanged - and the sign
semantics are inverted downstream: a DEPARTURE with negative quantity q
applies the positive delta -q (so it increases stock and can create a
missing stock row with positive quantity -q), while an ARRIVAL with
negative quantity applies the negative delta q and fails with
NEGATIVE_STOCK on a missing row. -/
theorem c10_negative_quantity_flows_through (e : EventData) (hq : e.quantity < 0) :
    ((validateKafkaMessage pi1 msgJsonNeg).bind (prepare_event_data pi1)).map
        EventData.quantity = some (-5) ∧
    (e.event_type = EventType.departure →
       quantity_delta e = -e.quantity ∧ 0 < quantity_delta e ∧
       create_or_update_stock [] e.warehouse_id e.product_id (quantity_delta e)
         = Except.ok [((e.warehouse_id, e.product_id), -e.quantity)]) ∧
    (e.event_type = EventType.arrival →
       quantity_delta e = e.quantity ∧
       create_or_update_stock [] e.warehouse_id e.product_id (quantity_delta e)
         = Except.error StockErr.negativeStock) := by
  refine ⟨by decide, ?_, ?_⟩
  · intro hdep
    have h1 : quantity_delta e = -e.quantity := by
      simp [quantity_delta, hdep]
    refine ⟨h1, ?_, ?_⟩
    · rw [h1]
      exact neg_pos.mpr hq
    · rw [h1]
      have h2 : ¬(-e.quantity < 0) := not_lt.mpr (le_of_lt (neg_pos.mpr hq))
      simp [create_or_update_stock, lookupStock, h2, setStock]
  · intro harr
    have h1 : quantity_delta e = e.quantity := by
      simp [quantity_delta, harr]
    refine ⟨h1, ?_⟩
    rw [h1]
    simp [create_or_update_stock, lookupStock, hq]

/-- Witness for C10: the negative-quantity departure edNeg creates a
stock row holding +5 from an empty table. -/
theorem c10_witness :
    create_or_update_stock [] edNeg.warehouse_id edNeg.product_id (quantity_delta edNeg)
      = Except.ok [((edNeg.warehouse_id, edNeg.product_id), -edNeg.quantity)] :=
  ((c10_negative_quantity_flows_through edNeg (by decide)).2.1 rfl).2.2
